import Mathlib

/-!
Verification of the koinos-contracts-cpp repository against its
natural-language specification.

Part 1: shallow embedding of the KOIN token contract
(src/contracts/koin/koin.cpp).

The contract persists two kinds of storage objects, both `uint64_t`:
the total supply (space `supply_id = 0`, empty key) and one balance per
account address (space `balance_id = 1`, keyed by the address bytes).
We model an address as a byte list and the persistent store as a record
holding the supply and the balance map.  All stored quantities are
`uint64_t` in the source; we embed them as `Nat` together with explicit
reduction modulo 2^64 exactly where the C++ 64-bit arithmetic can wrap.

`system::fail` / `system::revert` abort the invocation and the host
discards it, so an operation is embedded as a function returning
`Except String ...`.  To reason about which storage writes a handler has
performed before a failure, each operation also returns the list of
`put_object` calls it executed, in source order (`OpResult.writes`).
-/

set_option linter.unusedVariables false

/-- 2^64, the modulus of `uint64_t` arithmetic. -/
def u64size : Nat := 18446744073709551616

/-- Reduction of a `Nat` down to the value a C++ `uint64_t` computation yields. -/
def wrap (n : Nat) : Nat := n % u64size

/-- An account address: the raw bytes of `system::bytes` (koin.cpp builds
`from` / `to` / `owner` as byte vectors of length at most 25). -/
def Addr : Type := List Nat

instance : DecidableEq Addr := inferInstanceAs (DecidableEq (List Nat))

/-- The KOIN contract's persistent state: the supply object
(`supply_id` space) and the balance object per address (`balance_id`
space).  `get_object` on a missing key yields 0 in the source, which the
total map with default value models directly. -/
structure KoinState where
  supply : Nat
  balances : Addr → Nat

/-- All stored values are `uint64_t`: well-formedness of a state. -/
def Wf64 (s : KoinState) : Prop :=
  s.supply < u64size ∧ ∀ a, s.balances a < u64size

/-- `system::put_object` on the balance space: update one account's stored
balance. -/
def setBalance (s : KoinState) (a : Addr) (v : Nat) : KoinState :=
  { s with balances := fun x => if x = a then v else s.balances x }

/-- One `system::put_object` call, identified by the object space it
writes (koin.cpp only ever writes the supply object and balance objects). -/
inductive Write where
  | putSupply (v : Nat)
  | putBalance (a : Addr) (v : Nat)
deriving DecidableEq

/-- Outcome of one contract entry: the result (`Except.error` models
`system::fail` / `system::revert` aborting the invocation) and the list of
storage writes executed before returning, in source order. -/
structure OpResult where
  out : Except String KoinState
  writes : List Write

/-- `transfer` from src/contracts/koin/koin.cpp lines 101-142.
Checks, in source order: `from == to` fails; then the caller must be
`from` or `check_authority(from)` must hold; then `from_balance < value`
fails.  Then `from_balance -= value` (no wrap: guarded) and
`to_balance += value` (`uint64_t` addition, may wrap: no guard in the
source) and both balances are written.  `caller` is
`system::get_caller()` and `auth` is `system::check_authority`. -/
def transfer (caller : Addr) (auth : Addr → Bool) (s : KoinState)
    (fr toAddr : Addr) (value : Nat) : OpResult :=
  if fr = toAddr then
    { out := Except.error "cannot transfer to self", writes := [] }
  else if caller ≠ fr ∧ auth fr = false then
    { out := Except.error "from has not authorized transfer", writes := [] }
  else
    let fromBalance := s.balances fr
    if fromBalance < value then
      { out := Except.error "account from has insufficient balance", writes := [] }
    else
      let toBalance := s.balances toAddr
      let fromBalance2 := fromBalance - value
      let toBalance2 := wrap (toBalance + value)
      { out := Except.ok (setBalance (setBalance s fr fromBalance2) toAddr toBalance2),
        writes := [Write.putBalance fr fromBalance2, Write.putBalance toAddr toBalance2] }

/-- `mint` from src/contracts/koin/koin.cpp lines 144-173.
`new_supply = supply + amount` in `uint64_t` (wrapping); the source
detects supply overflow by `new_supply < supply` and reverts.  The
recipient balance update `to_balance += amount` is unguarded `uint64_t`
addition.  The source reads neither the caller nor any authority
(`caller` and `auth` are the ambient inputs every entry could consult;
`mint` consults neither). -/
def mint (caller : Addr) (auth : Addr → Bool) (s : KoinState)
    (toAddr : Addr) (amount : Nat) : OpResult :=
  let supply := s.supply
  let newSupply := wrap (supply + amount)
  if newSupply < supply then
    { out := Except.error "mint would overflow supply", writes := [] }
  else
    let toBalance := wrap (s.balances toAddr + amount)
    { out := Except.ok (setBalance { s with supply := newSupply } toAddr toBalance),
      writes := [Write.putSupply newSupply, Write.putBalance toAddr toBalance] }

/-- `burn` from src/contracts/koin/koin.cpp lines 175-213.
Checks, in source order: the caller must be `from` or
`check_authority(from)` must hold; then `from_balance < value` fails;
then `value > supply` reverts (supply underflow).  Then the supply and
the balance are written. -/
def burn (caller : Addr) (auth : Addr → Bool) (s : KoinState)
    (fr : Addr) (value : Nat) : OpResult :=
  if caller ≠ fr ∧ auth fr = false then
    { out := Except.error "from has not authorized burn", writes := [] }
  else
    let fromBalance := s.balances fr
    if fromBalance < value then
      { out := Except.error "account from has insufficient balance", writes := [] }
    else
      let fromBalance2 := fromBalance - value
      let supply := s.supply
      if supply < value then
        { out := Except.error "burn would underflow supply", writes := [] }
      else
        let newSupply := supply - value
        { out := Except.ok (setBalance { s with supply := newSupply } fr fromBalance2),
          writes := [Write.putSupply newSupply, Write.putBalance fr fromBalance2] }

/-- Entry point codes of the `entries` enum, src/contracts/koin/koin.cpp
lines 43-56. -/
def get_account_rc_entry : Nat := 0x2d464aab

def consume_account_rc_entry : Nat := 0x80e3f5c9

def name_entry : Nat := 0x82a3537f

def symbol_entry : Nat := 0xb76a7ca1

def decimals_entry : Nat := 0xee80fd2f

def total_supply_entry : Nat := 0xb0da3934

def balance_of_entry : Nat := 0x5c721497

def transfer_entry : Nat := 0x27f576ca

def mint_entry : Nat := 0xdc6f17bb

def burn_entry : Nat := 0x859facc5

def authorize_entry : Nat := 0x4a2dbd90

/-- The dispatcher: the `switch (entry_point)` of `main`,
src/contracts/koin/koin.cpp lines 225-289.  `some h` means the switch has
a case routing the entry point into the handler named `h`; `none` is the
`default` branch, `system::revert("unknown entry point")`.  The cases
appear in source order. -/
def dispatch (entryPoint : Nat) : Option String :=
  if entryPoint = name_entry then some "name"
  else if entryPoint = symbol_entry then some "symbol"
  else if entryPoint = decimals_entry then some "decimals"
  else if entryPoint = total_supply_entry then some "total_supply"
  else if entryPoint = balance_of_entry then some "balance_of"
  else if entryPoint = transfer_entry then some "transfer"
  else if entryPoint = mint_entry then some "mint"
  else if entryPoint = burn_entry then some "burn"
  else none

/-!
Part 2: the Resource Credit (mana) ledger.

The repository's documentation (src/docs, spec sections 3 and 4.3)
describes a per-account record of regenerating, balance-bounded spending
capacity.  Its implementation is not among the source files under src/
(src/contracts/koin/koin.cpp stores plain `uint64_t` balances and its
dispatcher handles no RC entry point), so the ledger is modelled from the
spec below; every such definition says so in its doc comment.
-/

/-- Modelled from the spec: the `AccountResourceCredit` record of spec
section 3 (the RC-ledger implementation is missing from src/).
`unlimited` is the explicit flag of spec section 4.3 marking
governance/system accounts with unlimited mana. -/
structure AccountResourceCredit where
  token_balance : Nat
  mana : Nat
  last_update_time : Nat
  unlimited : Bool

/-- Modelled from the spec: linear regeneration, spec section 4.3.
`elapsed = now - last`; `regen = balance * elapsed / rc_regen_ms`
(integer division); `new_mana = min(mana + regen, balance)`; the
`elapsed = 0` case is a no-op.  (Clock regression `now < last` is a
logic error per the spec; `Nat` subtraction lands it in the no-op case
and the theorems below only ever move time forward.) -/
def regenerate (balance mana last now regenMs : Nat) : Nat :=
  let elapsed := now - last
  if elapsed = 0 then mana
  else min (mana + balance * elapsed / regenMs) balance

/-- Modelled from the spec: the regeneration applied on every access,
persisting the regenerated mana and the new timestamp (spec section 4.3,
`get_rc` memoized side effect); unlimited accounts bypass regeneration. -/
def applyRegen (a : AccountResourceCredit) (now regenMs : Nat) :
    AccountResourceCredit :=
  if a.unlimited then a
  else
    { a with
      mana := regenerate a.token_balance a.mana a.last_update_time now regenMs,
      last_update_time := now }

/-- Modelled from the spec: `get_rc(account, now)` applies regeneration
and returns the mana (spec section 4.3); per the repository docs an
unlimited (governance) account reads as the maximum `uint64_t` value. -/
def get_rc (a : AccountResourceCredit) (now regenMs : Nat) : Nat :=
  if a.unlimited then u64size - 1
  else (applyRegen a now regenMs).mana

/-- Modelled from the spec: `consume(account, amount, now)` regenerates
first, fails with InsufficientMana when `mana < amount`, otherwise debits
(spec section 4.3); unlimited accounts bypass the debit. -/
def consume (a : AccountResourceCredit) (amount now regenMs : Nat) :
    Except String AccountResourceCredit :=
  if a.unlimited then Except.ok a
  else
    let a2 := applyRegen a now regenMs
    if a2.mana < amount then Except.error "InsufficientMana"
    else Except.ok { a2 with mana := a2.mana - amount }

/-- Modelled from the spec: `on_balance_changed(account, new_balance, now)`
regenerates first using the old balance, then sets
`token_balance = new_balance` and re-clamps `mana = min(mana, new_balance)`
(spec section 4.3); unlimited accounts bypass regeneration and the
balance ceiling. -/
def on_balance_changed (a : AccountResourceCredit) (newBalance now regenMs : Nat) :
    AccountResourceCredit :=
  if a.unlimited then { a with token_balance := newBalance }
  else
    let a2 := applyRegen a now regenMs
    { a2 with token_balance := newBalance, mana := min a2.mana newBalance }

/-- Modelled from the spec: lazy creation on first touch, defaulting
`mana = token_balance`, `last_update_time = now` (spec section 3,
AccountResourceCredit lifecycle). -/
def initRC (balance now : Nat) : AccountResourceCredit :=
  { token_balance := balance, mana := balance, last_update_time := now,
    unlimited := false }

/-- The account states reachable by any sequence of the RC ledger's
operations (spec section 4.3): creation, query (which persists the
regeneration), successful consumption, and an external balance change. -/
inductive RCReachable : AccountResourceCredit → Prop where
  | init (balance now : Nat) : RCReachable (initRC balance now)
  | query {a : AccountResourceCredit} (now regenMs : Nat) :
      RCReachable a → RCReachable (applyRegen a now regenMs)
  | consumeOk {a a2 : AccountResourceCredit} (amount now regenMs : Nat) :
      RCReachable a → consume a amount now regenMs = Except.ok a2 →
      RCReachable a2
  | balanceChanged {a : AccountResourceCredit} (newBalance now regenMs : Nat) :
      RCReachable a → RCReachable (on_balance_changed a newBalance now regenMs)

/-!
Part 3: the resource markets and block settlement.

The resources contract is documented in src/docs/api/resources.md and
spec sections 4.2 and 4.4, but its implementation is likewise not among
the source files under src/; the settlement path is modelled from the
spec below.
-/

/-- Modelled from the spec: the `ResourceMarket` record of spec section 3
(the resources-contract implementation is missing from src/). -/
structure Market where
  resource_supply : Nat
  block_budget : Nat
  block_limit : Nat

/-- Modelled from the spec: the global `SystemResourceParameters` record,
spec section 3. -/
structure SystemResourceParameters where
  block_interval_ms : Nat
  rc_regen_ms : Nat
  decay_constant : Nat
  one_minus_decay_constant : Nat
  print_rate_premium : Nat
  print_rate_precision : Nat

/-- Modelled from the spec: `decay(old_supply, decay_constant)` computes
`(old_supply * decay_constant) >> 64` with a double-width intermediate
(spec section 4.1). -/
def decay (oldSupply decayConstant : Nat) : Nat :=
  oldSupply * decayConstant / u64size

/-- Modelled from the spec: the per-block market update of spec
section 4.2, `new_supply = decay(old_supply) + print_rate - consumed`
with `print_rate = block_budget * premium / precision`, clamped to stay
at least 1 (the upper growth ceiling is left implementation-defined by
the spec and does not bear on the claims below). -/
def advance_block (m : Market) (consumed : Nat) (p : SystemResourceParameters) :
    Market :=
  let printRate := m.block_budget * p.print_rate_premium / p.print_rate_precision
  let newSupply := decay m.resource_supply p.decay_constant + printRate - consumed
  { m with resource_supply := max newSupply 1 }

/-- Modelled from the spec: the three independent markets of spec
section 2, in the order the repository docs list them. -/
structure ResourceMarkets where
  disk_storage : Market
  network_bandwidth : Market
  compute_bandwidth : Market

/-- The three resource kinds. -/
inductive ResourceKind where
  | disk_storage
  | network_bandwidth
  | compute_bandwidth
deriving DecidableEq

/-- Modelled from the spec: block settlement
(`consume_block_resources` / `settle_block`, spec section 4.4 and
src/docs/api/resources.md): each market's consumption is validated
against that market's `block_limit`; if any validation fails the caller
is told which resource exceeded its limit and no market is updated;
otherwise all three markets advance. -/
def consume_block_resources (ms : ResourceMarkets)
    (consumedDisk consumedNetwork consumedCompute : Nat)
    (p : SystemResourceParameters) : Except ResourceKind ResourceMarkets :=
  if ms.disk_storage.block_limit < consumedDisk then
    Except.error ResourceKind.disk_storage
  else if ms.network_bandwidth.block_limit < consumedNetwork then
    Except.error ResourceKind.network_bandwidth
  else if ms.compute_bandwidth.block_limit < consumedCompute then
    Except.error ResourceKind.compute_bandwidth
  else
    Except.ok
      { disk_storage := advance_block ms.disk_storage consumedDisk p,
        network_bandwidth := advance_block ms.network_bandwidth consumedNetwork p,
        compute_bandwidth := advance_block ms.compute_bandwidth consumedCompute p }

/-!
Part 4: helper lemmas shared by the claim theorems.
-/

theorem wrap_eq_of_lt {n : Nat} (h : n < u64size) : wrap n = n :=
  Nat.mod_eq_of_lt h

theorem setBalance_supply (s : KoinState) (a : Addr) (v : Nat) :
    (setBalance s a v).supply = s.supply := rfl

theorem setBalance_balances_same (s : KoinState) (a : Addr) (v : Nat) :
    (setBalance s a v).balances a = v := by
  simp [setBalance]

theorem setBalance_balances_other (s : KoinState) (a : Addr) (v : Nat)
    {b : Addr} (h : b ≠ a) : (setBalance s a v).balances b = s.balances b := by
  simp [setBalance, h]

/-- The regenerated mana never exceeds the balance, provided the old mana
did not. -/
theorem regenerate_le_balance {balance mana : Nat} (last now regenMs : Nat)
    (h : mana ≤ balance) : regenerate balance mana last now regenMs ≤ balance := by
  simp only [regenerate]
  split
  · exact h
  · exact Nat.min_le_right _ _

theorem applyRegen_unlimited (a : AccountResourceCredit) (now regenMs : Nat) :
    (applyRegen a now regenMs).unlimited = a.unlimited := by
  unfold applyRegen
  split <;> rfl

theorem applyRegen_token_balance (a : AccountResourceCredit) (now regenMs : Nat) :
    (applyRegen a now regenMs).token_balance = a.token_balance := by
  unfold applyRegen
  split <;> rfl

/-- `applyRegen` preserves the mana invariant. -/
theorem applyRegen_mana_le (a : AccountResourceCredit) (now regenMs : Nat)
    (h : a.unlimited = false → a.mana ≤ a.token_balance)
    (hu : (applyRegen a now regenMs).unlimited = false) :
    (applyRegen a now regenMs).mana ≤ (applyRegen a now regenMs).token_balance := by
  rw [applyRegen_unlimited] at hu
  unfold applyRegen
  simp only [hu, if_false, Bool.false_eq_true]
  exact regenerate_le_balance _ _ _ (h hu)

/-!
Part 5: the claims.
-/

/-- C10: for every transfer call where `from` equals `to`, including when
`value` is 0, the operation fails with "cannot transfer to self" and no
state is written.  The statement quantifies over every caller, every
authority oracle, every stored state, and every value, so the outcome is
independent of any authority check or balance read: the self-transfer
check is observably decided before them. -/
theorem transfer_self_always_fails (caller : Addr) (auth : Addr → Bool)
    (s : KoinState) (fr toAddr : Addr) (value : Nat) (h : fr = toAddr) :
    (transfer caller auth s fr toAddr value).out =
      Except.error "cannot transfer to self" ∧
    (transfer caller auth s fr toAddr value).writes = [] := by
  subst h
  simp [transfer]

theorem transfer_self_always_fails_witness :
    (transfer [1] (fun x => false) { supply := 0, balances := fun x => 0 }
        [2] [2] 0).out = Except.error "cannot transfer to self" ∧
    (transfer [1] (fun x => false) { supply := 0, balances := fun x => 0 }
        [2] [2] 0).writes = [] :=
  transfer_self_always_fails [1] (fun x => false)
    { supply := 0, balances := fun x => 0 } [2] [2] 0 rfl

/-- C3 (code evaluated at the failing input): the `switch` of `main` has
no case for the `get_account_rc` (0x2d464aab) and `consume_account_rc`
(0x80e3f5c9) entry points, although the contract's own `entries` enum
declares them and the repository docs document them as supported; both
fall through to the `default` branch, `system::revert("unknown entry
point")` (modelled as `none`). -/
theorem rc_entry_points_not_dispatched :
    dispatch get_account_rc_entry = none ∧
    dispatch consume_account_rc_entry = none := by
  constructor <;> rfl

/-- C4 (code evaluated at the failing input): a balance-changing transfer
writes exactly the two plain `uint64_t` balance objects and nothing else;
the contract keeps no resource-credit record, so no regeneration,
`token_balance` update, or mana re-clamp accompanies the balance change,
contrary to the repository docs' description of the mana system. -/
theorem transfer_writes_only_plain_balances :
    (transfer [1] (fun x => false)
        { supply := 10, balances := fun a => if a = [1] then 5 else 0 }
        [1] [2] 1).writes =
      [Write.putBalance [1] 4, Write.putBalance [2] 1] := by
  rfl

/-- C6: an account with `token_balance = 100`, `mana = 40`,
`last_update_time = 0` queried at `now = 216000000` with
`rc_regen_ms = 432000000` (half the regeneration window) has
`40 + 100 * 216000000 / 432000000 = 90` RC. -/
theorem get_rc_half_window :
    get_rc { token_balance := 100, mana := 40, last_update_time := 0,
             unlimited := false } 216000000 432000000 = 90 := by
  rfl

/-- C7: block settlement is atomic across the three markets: when network
consumption exceeds the network market's `block_limit` while disk and
compute are within their limits, settlement returns the failure naming
the network resource instead of an updated `ResourceMarkets` value, so
none of the three markets' `resource_supply` changes (the caller keeps
the prior `ms`). -/
theorem consume_block_resources_atomic (ms : ResourceMarkets)
    (consumedDisk consumedNetwork consumedCompute : Nat)
    (p : SystemResourceParameters)
    (hd : consumedDisk ≤ ms.disk_storage.block_limit)
    (hn : ms.network_bandwidth.block_limit < consumedNetwork)
    (hc : consumedCompute ≤ ms.compute_bandwidth.block_limit) :
    consume_block_resources ms consumedDisk consumedNetwork consumedCompute p =
      Except.error ResourceKind.network_bandwidth := by
  simp [consume_block_resources, Nat.not_lt.mpr hd, hn]

theorem consume_block_resources_atomic_witness :
    consume_block_resources
      { disk_storage := { resource_supply := 1000, block_budget := 10, block_limit := 100 },
        network_bandwidth := { resource_supply := 1000, block_budget := 10, block_limit := 100 },
        compute_bandwidth := { resource_supply := 1000, block_budget := 10, block_limit := 100 } }
      50 200 50
      { block_interval_ms := 3000, rc_regen_ms := 432000000,
        decay_constant := 18446596084619782819,
        one_minus_decay_constant := 147989089768797,
        print_rate_premium := 1688, print_rate_precision := 1000 } =
      Except.error ResourceKind.network_bandwidth :=
  consume_block_resources_atomic _ _ _ _ _
    (by decide) (by decide) (by decide)

/-- C2: on every failure path of transfer, mint, or burn, no storage
write has been executed — neither a balance object nor the supply object —
and the failure is the operation's returned outcome.  Every
`system::put_object` in the three handlers comes after all of the
handler's checks, so an aborting invocation has an empty write list. -/
theorem failure_commits_no_writes (caller : Addr) (auth : Addr → Bool)
    (s : KoinState) (fr toAddr : Addr) (value : Nat) (e : String) :
    ((transfer caller auth s fr toAddr value).out = Except.error e →
      (transfer caller auth s fr toAddr value).writes = []) ∧
    ((mint caller auth s toAddr value).out = Except.error e →
      (mint caller auth s toAddr value).writes = []) ∧
    ((burn caller auth s fr value).out = Except.error e →
      (burn caller auth s fr value).writes = []) := by
  refine ⟨?_, ?_, ?_⟩
  · simp only [transfer]
    split
    · intro _; rfl
    · split
      · intro _; rfl
      · split
        · intro _; rfl
        · intro h; exact absurd h (by simp)
  · simp only [mint]
    split
    · intro _; rfl
    · intro h; exact absurd h (by simp)
  · simp only [burn]
    split
    · intro _; rfl
    · split
      · intro _; rfl
      · split
        · intro _; rfl
        · intro h; exact absurd h (by simp)

theorem failure_commits_no_writes_witness :
    (transfer [1] (fun x => false) { supply := 0, balances := fun x => 0 }
        [2] [2] 1).writes = [] :=
  (failure_commits_no_writes [1] (fun x => false)
      { supply := 0, balances := fun x => 0 } [2] [2] 1
      "cannot transfer to self").1 rfl

/-- C9: an authorized transfer between distinct accounts with sufficient
funds succeeds, decreases the sender's stored balance by exactly `value`,
sets the recipient's stored balance to the old balance plus `value`
reduced modulo 2^64, and leaves the total supply and every other
account's balance unchanged. -/
theorem transfer_ok_effect (caller : Addr) (auth : Addr → Bool)
    (s : KoinState) (fr toAddr : Addr) (value : Nat) (hne : fr ≠ toAddr)
    (hauth : caller = fr ∨ auth fr = true) (hbal : value ≤ s.balances fr) :
    (transfer caller auth s fr toAddr value).out =
      Except.ok (setBalance (setBalance s fr (s.balances fr - value)) toAddr
        (wrap (s.balances toAddr + value))) ∧
    (setBalance (setBalance s fr (s.balances fr - value)) toAddr
        (wrap (s.balances toAddr + value))).supply = s.supply ∧
    (setBalance (setBalance s fr (s.balances fr - value)) toAddr
        (wrap (s.balances toAddr + value))).balances fr =
      s.balances fr - value ∧
    (setBalance (setBalance s fr (s.balances fr - value)) toAddr
        (wrap (s.balances toAddr + value))).balances toAddr =
      wrap (s.balances toAddr + value) ∧
    ∀ a : Addr, a ≠ fr → a ≠ toAddr →
      (setBalance (setBalance s fr (s.balances fr - value)) toAddr
        (wrap (s.balances toAddr + value))).balances a = s.balances a := by
  have hc : ¬(caller ≠ fr ∧ auth fr = false) := by
    rcases hauth with h | h
    · exact fun hh => hh.1 h
    · exact fun hh => by rw [h] at hh; exact Bool.noConfusion hh.2
  refine ⟨?_, rfl, ?_, ?_, ?_⟩
  · simp only [transfer, if_neg hne, if_neg hc, if_neg (Nat.not_lt.mpr hbal)]
  · rw [setBalance_balances_other _ _ _ hne, setBalance_balances_same]
  · rw [setBalance_balances_same]
  · intro a ha hato
    rw [setBalance_balances_other _ _ _ hato, setBalance_balances_other _ _ _ ha]

/-- The concrete state for the C9 witness. -/
def c9State : KoinState :=
  { supply := 9, balances := fun a => if a = [1] then 5 else 0 }

theorem transfer_ok_effect_witness :
    (transfer [1] (fun x => false) c9State [1] [2] 3).out =
      Except.ok (setBalance (setBalance c9State [1] (c9State.balances [1] - 3))
        [2] (wrap (c9State.balances [2] + 3))) :=
  (transfer_ok_effect [1] (fun x => false) c9State [1] [2] 3
      (by decide) (Or.inl rfl) (by decide)).1

/-- The concrete state for the C8 counterexample: the recipient already
holds the maximum `uint64_t` balance while the supply object holds 0. -/
def c8State : KoinState :=
  { supply := 0, balances := fun a => if a = [7] then u64size - 1 else 0 }

/-- C8 counterexample: minting 1 to an account holding 2^64 - 1 passes
the supply-overflow check (0 + 1 does not overflow) and succeeds, but the
recipient's stored balance wraps to 0 — it is not increased by the minted
value. -/
theorem mint_balance_wrap_counterexample :
    ((mint [1] (fun x => false) c8State [7] 1).out.map
        fun s2 => s2.balances [7]) = Except.ok 0 ∧
    c8State.supply + 1 < u64size ∧
    c8State.balances [7] + 1 ≠ 0 := by
  refine ⟨rfl, by decide, by decide⟩

/-- C8 amended: mint performs no caller authorization check — its result
is identical for every caller and every authority oracle — and succeeds
exactly when `supply + value` fits in a `uint64_t`; on success it writes
`supply + value` as the new total supply and `(balance + value) mod 2^64`
as the recipient's stored balance, which equals `balance + value`
whenever that sum also fits in a `uint64_t`. -/
theorem mint_no_auth_check_effect (caller caller2 : Addr)
    (auth auth2 : Addr → Bool) (s : KoinState) (toAddr : Addr) (amount : Nat)
    (hs : s.supply < u64size) (ha : amount < u64size) :
    mint caller auth s toAddr amount = mint caller2 auth2 s toAddr amount ∧
    (s.supply + amount < u64size →
      (mint caller auth s toAddr amount).out =
        Except.ok (setBalance { s with supply := s.supply + amount } toAddr
          (wrap (s.balances toAddr + amount))) ∧
      (setBalance { s with supply := s.supply + amount } toAddr
          (wrap (s.balances toAddr + amount))).supply = s.supply + amount ∧
      (s.balances toAddr + amount < u64size →
        (setBalance { s with supply := s.supply + amount } toAddr
          (wrap (s.balances toAddr + amount))).balances toAddr =
          s.balances toAddr + amount)) ∧
    (u64size ≤ s.supply + amount →
      (mint caller auth s toAddr amount).out =
        Except.error "mint would overflow supply" ∧
      (mint caller auth s toAddr amount).writes = []) := by
  refine ⟨rfl, ?_, ?_⟩
  · intro h
    have hw : wrap (s.supply + amount) = s.supply + amount := wrap_eq_of_lt h
    refine ⟨?_, rfl, ?_⟩
    · simp only [mint, hw, if_neg (Nat.not_lt.mpr (Nat.le_add_right _ _))]
    · intro h2
      rw [setBalance_balances_same, wrap_eq_of_lt h2]
  · intro h
    have hw : wrap (s.supply + amount) < s.supply := by
      simp only [wrap, u64size] at hs ha h ⊢
      omega
    simp [mint, if_pos hw]

/-- The concrete state for the C8 amended-claim witness. -/
def c8wState : KoinState := { supply := 100, balances := fun x => 0 }

theorem mint_no_auth_check_effect_witness :
    mint [1] (fun x => false) c8wState [3] 5 =
      mint [2] (fun x => true) c8wState [3] 5 :=
  (mint_no_auth_check_effect [1] [2] (fun x => false) (fun x => true)
      c8wState [3] 5 (by decide) (by decide)).1

/-- The concrete state for the C1 counterexample: the recipient holds the
maximum `uint64_t` balance and the sender holds 1. -/
def c1State : KoinState :=
  { supply := 5,
    balances := fun a => if a = [2] then u64size - 1 else
      if a = [1] then 1 else 0 }

/-- C1 counterexample: the recipient's stored balance plus the
transferred value exceeds 2^64 - 1, yet the transfer does not fail: it
succeeds, executes writes, and persists the wrapped recipient balance 0. -/
theorem transfer_overflow_not_detected :
    u64size - 1 < c1State.balances [2] + 1 ∧
    ((transfer [1] (fun x => false) c1State [1] [2] 1).out.map
        fun s2 => s2.balances [2]) = Except.ok 0 ∧
    (transfer [1] (fun x => false) c1State [1] [2] 1).writes ≠ [] := by
  refine ⟨by decide, rfl, by decide⟩

/-- C1 amended: a mint whose supply addition would lose precision is
detected before any write and aborts the whole operation; transfer, by
contrast, has no overflow check on the recipient's balance: whenever its
self/authority/funds checks pass it persists the recipient balance
`(to_balance + value) mod 2^64`, wrapping silently if the sum exceeds
2^64 - 1 (no such state arises while every balance stays bounded by the
total supply, which the supply-overflow check protects). -/
theorem overflow_abort_mint_only (caller : Addr) (auth : Addr → Bool)
    (s : KoinState) (fr toAddr : Addr) (value : Nat)
    (hs : s.supply < u64size) (hv : value < u64size) :
    (u64size ≤ s.supply + value →
      (mint caller auth s toAddr value).out =
        Except.error "mint would overflow supply" ∧
      (mint caller auth s toAddr value).writes = []) ∧
    (fr ≠ toAddr → (caller = fr ∨ auth fr = true) → value ≤ s.balances fr →
      (transfer caller auth s fr toAddr value).out =
        Except.ok (setBalance (setBalance s fr (s.balances fr - value)) toAddr
          (wrap (s.balances toAddr + value)))) := by
  constructor
  · intro h
    have hw : wrap (s.supply + value) < s.supply := by
      simp only [wrap, u64size] at hs hv h ⊢
      omega
    simp [mint, if_pos hw]
  · intro hne hauth hbal
    have hc : ¬(caller ≠ fr ∧ auth fr = false) := by
      rcases hauth with h | h
      · exact fun hh => hh.1 h
      · exact fun hh => by rw [h] at hh; exact Bool.noConfusion hh.2
    simp only [transfer, if_neg hne, if_neg hc, if_neg (Nat.not_lt.mpr hbal)]

/-- The concrete state for the C1 amended-claim witness: the supply
object already holds the maximum `uint64_t` value. -/
def c1wState : KoinState :=
  { supply := u64size - 1, balances := fun x => 0 }

theorem overflow_abort_mint_only_witness :
    (mint [1] (fun x => false) c1wState [2] 1).out =
      Except.error "mint would overflow supply" ∧
    (mint [1] (fun x => false) c1wState [2] 1).writes = [] :=
  (overflow_abort_mint_only [1] (fun x => false) c1wState [2] [3] 1
      (by decide) (by decide)).1 (by decide)

/-- C5: for every account not flagged unlimited, at every account state
reachable by any sequence of the RC ledger's operations (creation, query,
successful consumption, external balance change), the account's mana is
at most its token balance. -/
theorem rc_mana_le_token_balance {a : AccountResourceCredit}
    (h : RCReachable a) : a.unlimited = false → a.mana ≤ a.token_balance := by
  induction h with
  | init balance now =>
      intro _
      exact Nat.le_refl _
  | query now regenMs hre ih =>
      intro hu
      exact applyRegen_mana_le _ now regenMs ih hu
  | @consumeOk a a2 amount now regenMs hre hc ih =>
      intro hu
      by_cases hul : a.unlimited = true
      · simp only [consume, hul, if_true, Except.ok.injEq] at hc
        rw [← hc] at hu
        rw [hu] at hul
        exact Bool.noConfusion hul
      · have hulf : a.unlimited = false := by
          simpa using hul
        simp only [consume, hulf, Bool.false_eq_true, if_false] at hc
        split at hc
        · exact absurd hc (by simp)
        · have hinv := applyRegen_mana_le a now regenMs ih
            (by rw [applyRegen_unlimited]; exact hulf)
          simp only [Except.ok.injEq] at hc
          rw [← hc]
          exact Nat.le_trans (Nat.sub_le _ _) hinv
  | @balanceChanged a newBalance now regenMs hre ih =>
      intro hu
      by_cases hul : a.unlimited = true
      · simp [on_balance_changed, hul] at hu
      · have hulf : a.unlimited = false := by
          simpa using hul
        simp only [on_balance_changed, hulf, Bool.false_eq_true, if_false]
        exact Nat.min_le_right _ _

theorem rc_mana_le_token_balance_witness :
    (initRC 5 0).mana ≤ (initRC 5 0).token_balance :=
  rc_mana_le_token_balance (RCReachable.init 5 0) rfl
